import Mathlib

/-!
Shallow embedding of the posture-monitoring core of the PostureCV repository
(`src/posture_monitor.py`, with the geometry duplicated in `camera_preview.py`).

The embedding covers:
* the per-frame state machine of `PostureMonitor._monitor_loop`
  (calibration accumulation, slouch debouncing, warning trigger);
* the session-start reset performed at the top of `_monitor_loop`;
* the camera-open retry loop of `_monitor_loop`;
* callback invocation (`_update_status` and the warning callback), including
  the behaviour of the loop when a user callback raises;
* the landmark-geometry ratio computation.

Ratios are modelled as rationals (exact arithmetic standing in for Python
floats) in the state machine, and as reals in the geometry layer, where a
Euclidean norm (square root) occurs.
-/

namespace PostureCV

/-- Status values published via `PostureMonitor._update_status`, one
constructor per distinct status string of `posture_monitor.py`. -/
inductive Status
  | idle                    -- "Idle"
  | calibratingStart        -- "Calibrating..."
  | calibratingPct (p : ℕ)  -- "Calibrating: <p>%"
  | monitoring              -- "Monitoring"
  | slouching               -- "SLOUCHING!"
  | goodPosture             -- "Good posture"
  | stopped                 -- "Stopped"
  | errorAccessDenied       -- "Error: Camera access denied"
  | errorReadFailed         -- "Error: Camera read failed"
  deriving DecidableEq, Repr

/-- The mutable fields of `PostureMonitor` that the per-frame pipeline reads
and writes (source names kept). -/
structure MState where
  calibration_frames : ℕ
  avg_ratio : ℚ
  is_calibrated : Bool
  baseline_ratio : ℚ
  slouch_timer : ℕ
  current_status : Status
  deriving DecidableEq, Repr

/-- `self.calibration_limit = 90` in `PostureMonitor.__init__`. -/
def calibration_limit : ℕ := 90

/-- `self.SENSITIVITY = 0.85` in `PostureMonitor.__init__`. -/
def SENSITIVITY : ℚ := 85 / 100

/-- `self.slouch_trigger_time = 3` in `PostureMonitor.__init__`. -/
def slouch_trigger_time : ℕ := 3

/-- The state set up by `PostureMonitor.__init__`. -/
def initState : MState :=
  { calibration_frames := 0
    avg_ratio := 0
    is_calibrated := false
    baseline_ratio := 0
    slouch_timer := 0
    current_status := Status.idle }

/-- The reset performed at the top of `_monitor_loop` once the camera is
open (lines 122-128): publish "Calibrating..." and zero the calibration
fields.  Note the source resets only `calibration_frames`, `avg_ratio` and
`is_calibrated`; `slouch_timer` and `baseline_ratio` are left untouched. -/
def startSession (s : MState) : MState :=
  { s with
    current_status := Status.calibratingStart
    calibration_frames := 0
    avg_ratio := 0
    is_calibrated := false }

/-- One execution of the landmark-processing body of `_monitor_loop`
(lines 172-201) on a computed `current_ratio`.  Returns the new state and
whether the warning callback fired on this frame.

The progress percentage `int((calibration_frames / calibration_limit) * 100)`
is modelled by exact floored division (the float rounding of the progress
text plays no role in any claim).  On the frame completing calibration the
source publishes "Calibrating: 100%" and then "Monitoring"; the state models
the last published value. -/
def processRatio (s : MState) (current_ratio : ℚ) : MState × Bool :=
  if s.is_calibrated = false then
    -- Calibration phase
    let cf := s.calibration_frames + 1
    let av := s.avg_ratio + current_ratio
    if cf ≥ calibration_limit then
      ({ s with
          calibration_frames := cf
          avg_ratio := av
          baseline_ratio := av / (calibration_limit : ℚ)
          is_calibrated := true
          current_status := Status.monitoring }, false)
    else
      ({ s with
          calibration_frames := cf
          avg_ratio := av
          current_status := Status.calibratingPct (cf * 100 / calibration_limit) }, false)
  else
    -- Monitoring phase - check for slouch
    let s1 :=
      if current_ratio < s.baseline_ratio * SENSITIVITY then
        { s with
          slouch_timer := s.slouch_timer + 1
          current_status :=
            if s.slouch_timer + 1 > 15 then Status.slouching else s.current_status }
      else
        { s with slouch_timer := 0, current_status := Status.goodPosture }
    -- Trigger warning after sustained slouching
    if s1.slouch_timer > 30 * slouch_trigger_time then
      ({ s1 with slouch_timer := 0 }, true)
    else
      (s1, false)

/-- One frame of the steady-state loop, where `none` stands for a frame with
no pose detection or degenerate shoulder geometry: the landmark body is
skipped entirely and no state changes. -/
def stepFrame (s : MState) (r : Option ℚ) : MState × Bool :=
  match r with
  | none => (s, false)
  | some cur => processRatio s cur

/-- Run the loop over a list of frames, counting warning-callback firings. -/
def runFrames (s : MState) (rs : List (Option ℚ)) : MState × ℕ :=
  match rs with
  | [] => (s, 0)
  | r :: rest =>
    let p := stepFrame s r
    let q := runFrames p.1 rest
    (q.1, (if p.2 then 1 else 0) + q.2)

/-- Run the loop over frames that all produced a valid ratio. -/
def runRatios (s : MState) (rs : List ℚ) : MState × ℕ :=
  runFrames s (rs.map some)

/-- A freshly calibrated monitoring state with baseline `b`: what the state
machine reaches at the end of calibration (modulo the recorded sum). -/
def monState (b : ℚ) : MState :=
  { calibration_frames := calibration_limit
    avg_ratio := b * (calibration_limit : ℚ)
    is_calibrated := true
    baseline_ratio := b
    slouch_timer := 0
    current_status := Status.monitoring }

/-! ### Camera-open retry loop (lines 103-120 of `_monitor_loop`)

A device is modelled by a function `dev : ℕ → Bool × Bool`: for the capture
object created on attempt `i`, `(dev i).1` is the result of `isOpened()` and
`(dev i).2` is the success flag `ret` of its first (discarded) `read()`. -/

/-- The body of `for attempt in range(3)` (lines 105-115).  `i` is the next
attempt index, `fuel` the number of remaining iterations, `cap` the current
value of `self.cap` (by the attempt index it came from).  Each iteration
assigns a fresh capture to `self.cap`; on `isOpened()` it tries one read and
breaks on success (keeping `cap`), otherwise it continues with `cap` kept;
on `not isOpened()` it releases and sets `self.cap = None` before the next
iteration. -/
def openLoopGo (dev : ℕ → Bool × Bool) : ℕ → ℕ → Option ℕ → Option ℕ
  | _, 0, cap => cap
  | i, fuel + 1, _ =>
    if (dev i).1 then
      if (dev i).2 then some i
      else openLoopGo dev (i + 1) fuel (some i)
    else openLoopGo dev (i + 1) fuel none

/-- `self.cap` after the retry loop (line 104 initialises it to `None`). -/
def openCamera (dev : ℕ → Bool × Bool) : Option ℕ :=
  openLoopGo dev 0 3 none

/-- Result of lines 117-120: either the loop gives up with
"Error: Camera access denied" and returns, or the session proceeds into the
per-frame pipeline holding the capture from attempt `i`. -/
inductive OpenOutcome
  | denied
  | proceed (i : ℕ)
  deriving DecidableEq, Repr

/-- The post-loop check `if not self.cap or not self.cap.isOpened()`
(lines 117-120) deciding whether the session continues. -/
def cameraOpenOutcome (dev : ℕ → Bool × Bool) : OpenOutcome :=
  match openCamera dev with
  | none => OpenOutcome.denied
  | some i => if (dev i).1 then OpenOutcome.proceed i else OpenOutcome.denied

/-! ### Callback invocation with exceptions

`_update_status` (lines 61-65) sets `self.current_status` and then invokes
the status callback with no surrounding `try`/`except`; the warning callback
(lines 199-200) is likewise invoked bare.  A callback is modelled as a
function returning `Except Unit Unit`: `Except.error ()` means the callback
raised.  An error propagates to the caller of `_update_status`, i.e. into
`_monitor_loop`, which has no handler either, so it ends the loop. -/

/-- `_update_status` with a fallible status callback: the status field is
assigned first, then the callback runs; a raised exception propagates. -/
def updateStatusCb (cb : Status → Except Unit Unit) (s : MState) (st : Status) :
    Except Unit MState :=
  match cb st with
  | Except.ok _ => Except.ok { s with current_status := st }
  | Except.error e => Except.error e

/-- The landmark-processing body of `_monitor_loop` (lines 172-201) with
fallible callbacks: `cb` is the status callback, `warn` the warning
callback.  Mirrors `processRatio`, with every `_update_status` call routed
through `updateStatusCb` and the warning invocation through `warn`. -/
def processRatioCb (cb : Status → Except Unit Unit) (warn : Except Unit Unit)
    (s : MState) (current_ratio : ℚ) : Except Unit MState :=
  if s.is_calibrated = false then
    let cf := s.calibration_frames + 1
    let av := s.avg_ratio + current_ratio
    let s1 := { s with calibration_frames := cf, avg_ratio := av }
    do
      let s2 ← updateStatusCb cb s1 (Status.calibratingPct (cf * 100 / calibration_limit))
      if cf ≥ calibration_limit then
        updateStatusCb cb
          { s2 with
            baseline_ratio := av / (calibration_limit : ℚ)
            is_calibrated := true }
          Status.monitoring
      else
        pure s2
  else do
    let s1 ←
      if current_ratio < s.baseline_ratio * SENSITIVITY then
        let s1 := { s with slouch_timer := s.slouch_timer + 1 }
        if s1.slouch_timer > 15 then updateStatusCb cb s1 Status.slouching
        else pure s1
      else
        updateStatusCb cb { s with slouch_timer := 0 } Status.goodPosture
    if s1.slouch_timer > 30 * slouch_trigger_time then
      match warn with
      | Except.ok _ => pure { s1 with slouch_timer := 0 }
      | Except.error e => Except.error e
    else
      pure s1

/-- The steady-state loop with fallible callbacks.  Returns the loop result
and how many frames were consumed: an uncaught callback exception ends the
loop on the frame where it was raised, leaving the rest unprocessed. -/
def runFramesCb (cb : Status → Except Unit Unit) (warn : Except Unit Unit) :
    MState → List (Option ℚ) → Except Unit MState × ℕ
  | s, [] => (Except.ok s, 0)
  | s, none :: rest =>
    let q := runFramesCb cb warn s rest
    (q.1, q.2 + 1)
  | s, some cur :: rest =>
    match processRatioCb cb warn s cur with
    | Except.ok s1 =>
      let q := runFramesCb cb warn s1 rest
      (q.1, q.2 + 1)
    | Except.error e => (Except.error e, 1)

/-! ### Landmark geometry (lines 157-170; duplicated in
`camera_preview.py`, lines 88-102)

Points are `(x, y)` pairs in pixel coordinates, modelled over `ℝ`. -/

/-- Euclidean distance between two 2D points:
`np.linalg.norm(np.array(p) - np.array(q))`. -/
noncomputable def euclideanDist (p q : ℝ × ℝ) : ℝ :=
  Real.sqrt ((p.1 - q.1) ^ 2 + (p.2 - q.2) ^ 2)

/-- Lines 161-170: from the three landmark points, compute
`neck_height / shldr_width` guarded by `if shldr_width > 0`, or skip
(`none`) otherwise. -/
noncomputable def computeRatio (nose l_shldr r_shldr : ℝ × ℝ) : Option ℝ :=
  let shldr_mid_y := (l_shldr.2 + r_shldr.2) / 2
  let neck_height := |shldr_mid_y - nose.2|
  let shldr_width := euclideanDist l_shldr r_shldr
  if shldr_width > 0 then some (neck_height / shldr_width) else none

/-- Uniform scaling of a point by a factor `k`. -/
def scalePoint (k : ℝ) (p : ℝ × ℝ) : ℝ × ℝ := (k * p.1, k * p.2)

/-! ### Basic lemmas about the loop runner -/

theorem runFrames_nil (s : MState) : runFrames s [] = (s, 0) := rfl

theorem runFrames_cons (s : MState) (r : Option ℚ) (rs : List (Option ℚ)) :
    runFrames s (r :: rs) =
      ((runFrames (stepFrame s r).1 rs).1,
        (if (stepFrame s r).2 then 1 else 0) + (runFrames (stepFrame s r).1 rs).2) := rfl

theorem runFrames_append (s : MState) (xs ys : List (Option ℚ)) :
    runFrames s (xs ++ ys) =
      ((runFrames (runFrames s xs).1 ys).1,
        (runFrames s xs).2 + (runFrames (runFrames s xs).1 ys).2) := by
  induction xs generalizing s with
  | nil => simp [runFrames_nil]
  | cons x xs ih => simp [runFrames_cons, ih, Nat.add_assoc]

theorem runRatios_nil (s : MState) : runRatios s [] = (s, 0) := rfl

theorem runRatios_cons (s : MState) (r : ℚ) (rs : List ℚ) :
    runRatios s (r :: rs) =
      ((runRatios (processRatio s r).1 rs).1,
        (if (processRatio s r).2 then 1 else 0) + (runRatios (processRatio s r).1 rs).2) := rfl

theorem runRatios_append (s : MState) (xs ys : List ℚ) :
    runRatios s (xs ++ ys) =
      ((runRatios (runRatios s xs).1 ys).1,
        (runRatios s xs).2 + (runRatios (runRatios s xs).1 ys).2) := by
  simp [runRatios, runFrames_append]

theorem runRatios_singleton (s : MState) (r : ℚ) :
    runRatios s [r] =
      ((processRatio s r).1, if (processRatio s r).2 then 1 else 0) := by
  simp [runRatios_cons, runRatios_nil]

/-! ### Branch lemmas for `processRatio` -/

theorem processRatio_calibrating (s : MState) (h : s.is_calibrated = false) (r : ℚ)
    (hlt : s.calibration_frames + 1 < calibration_limit) :
    processRatio s r =
      ({ s with
          calibration_frames := s.calibration_frames + 1
          avg_ratio := s.avg_ratio + r
          current_status :=
            Status.calibratingPct ((s.calibration_frames + 1) * 100 / calibration_limit) },
        false) := by
  unfold processRatio
  rw [if_pos (by rw [h]), if_neg (by omega)]

theorem processRatio_calibration_done (s : MState) (h : s.is_calibrated = false) (r : ℚ)
    (hge : calibration_limit ≤ s.calibration_frames + 1) :
    processRatio s r =
      ({ s with
          calibration_frames := s.calibration_frames + 1
          avg_ratio := s.avg_ratio + r
          baseline_ratio := (s.avg_ratio + r) / (calibration_limit : ℚ)
          is_calibrated := true
          current_status := Status.monitoring },
        false) := by
  unfold processRatio
  rw [if_pos (by rw [h]), if_pos (by omega)]

theorem processRatio_bad (s : MState) (h : s.is_calibrated = true) (r : ℚ)
    (hr : r < s.baseline_ratio * SENSITIVITY) :
    processRatio s r =
      if s.slouch_timer + 1 > 30 * slouch_trigger_time then
        ({ s with
            slouch_timer := 0
            current_status :=
              if s.slouch_timer + 1 > 15 then Status.slouching else s.current_status },
          true)
      else
        ({ s with
            slouch_timer := s.slouch_timer + 1
            current_status :=
              if s.slouch_timer + 1 > 15 then Status.slouching else s.current_status },
          false) := by
  unfold processRatio
  rw [if_neg (by rw [h]; simp), if_pos hr]

theorem processRatio_good (s : MState) (h : s.is_calibrated = true) (r : ℚ)
    (hr : ¬ r < s.baseline_ratio * SENSITIVITY) :
    processRatio s r = ({ s with slouch_timer := 0, current_status := Status.goodPosture }, false) := by
  unfold processRatio
  rw [if_neg (by rw [h]; simp), if_neg hr, if_neg (by simp [slouch_trigger_time])]

/-- Whenever the warning callback fires, the state it leaves behind has
`slouch_timer = 0` (line 201: "Reset to prevent spam"). -/
theorem fire_resets_timer (s : MState) (r : ℚ) (h : (processRatio s r).2 = true) :
    (processRatio s r).1.slouch_timer = 0 := by
  by_cases hcal : s.is_calibrated = true
  · by_cases hr : r < s.baseline_ratio * SENSITIVITY
    · rw [processRatio_bad s hcal r hr] at h ⊢
      by_cases hf : s.slouch_timer + 1 > 30 * slouch_trigger_time
      · simp [hf]
      · simp [hf] at h
    · rw [processRatio_good s hcal r hr] at h
      simp at h
  · replace hcal : s.is_calibrated = false := by
      simpa using hcal
    by_cases hlt : s.calibration_frames + 1 < calibration_limit
    · rw [processRatio_calibrating s hcal r hlt] at h
      simp at h
    · rw [processRatio_calibration_done s hcal r (by omega)] at h
      simp at h

/-! ### Accumulation lemmas -/

/-- While strictly fewer than `calibration_limit` frames have accumulated,
the calibration phase just counts frames and sums ratios; no warning fires,
and the slouch/baseline fields are untouched. -/
theorem calib_run (rs : List ℚ) : ∀ s : MState, s.is_calibrated = false →
    s.calibration_frames + rs.length < calibration_limit →
    (runRatios s rs).1.calibration_frames = s.calibration_frames + rs.length ∧
    (runRatios s rs).1.avg_ratio = s.avg_ratio + rs.sum ∧
    (runRatios s rs).1.is_calibrated = false ∧
    (runRatios s rs).1.baseline_ratio = s.baseline_ratio ∧
    (runRatios s rs).1.slouch_timer = s.slouch_timer ∧
    (runRatios s rs).2 = 0 := by
  induction rs with
  | nil =>
    intro s h _
    simp [runRatios_nil]
    exact h
  | cons r rest ih =>
    intro s h hlt
    simp only [List.length_cons] at hlt
    rw [runRatios_cons, processRatio_calibrating s h r (by omega)]
    set s1 : MState := { s with
        calibration_frames := s.calibration_frames + 1
        avg_ratio := s.avg_ratio + r
        current_status :=
          Status.calibratingPct ((s.calibration_frames + 1) * 100 / calibration_limit) }
      with hs1
    obtain ⟨e1, e2, e3, e4, e5, e6⟩ := ih s1 (by simp [hs1, h]) (by simp [hs1]; omega)
    refine ⟨?_, ?_, ?_, ?_, ?_, ?_⟩
    · rw [e1]
      simp [hs1]
      omega
    · rw [e2]
      simp [hs1]
      ring
    · exact e3
    · rw [e4]
    · rw [e5]
    · simp [e6]

/-- Feeding exactly `calibration_limit` valid ratios to a freshly reset
accumulator completes calibration: the baseline becomes the mean of the fed
ratios (plus any residue in `avg_ratio`, zero after a reset), the status
becomes `Monitoring`, and no warning fires. -/
theorem calibrate_full (s : MState) (h : s.is_calibrated = false)
    (h0 : s.calibration_frames = 0) (rs : List ℚ) (hlen : rs.length = calibration_limit) :
    (runRatios s rs).1.calibration_frames = calibration_limit ∧
    (runRatios s rs).1.avg_ratio = s.avg_ratio + rs.sum ∧
    (runRatios s rs).1.is_calibrated = true ∧
    (runRatios s rs).1.baseline_ratio = (s.avg_ratio + rs.sum) / (calibration_limit : ℚ) ∧
    (runRatios s rs).1.slouch_timer = s.slouch_timer ∧
    (runRatios s rs).1.current_status = Status.monitoring ∧
    (runRatios s rs).2 = 0 := by
  have hne : rs ≠ [] := by
    intro he
    rw [he] at hlen
    simp [calibration_limit] at hlen
  obtain ⟨ys, y, hys⟩ : ∃ ys y, rs = ys ++ [y] :=
    ⟨rs.dropLast, rs.getLast hne, (List.dropLast_append_getLast hne).symm⟩
  subst hys
  have hlen' : ys.length = calibration_limit - 1 := by
    simp at hlen
    omega
  rw [runRatios_append, runRatios_singleton]
  obtain ⟨e1, e2, e3, e4, e5, e6⟩ :=
    calib_run ys s h (by rw [hlen', h0]; simp [calibration_limit])
  rw [processRatio_calibration_done _ e3 _ (by rw [e1, hlen', h0]; simp [calibration_limit])]
  refine ⟨?_, ?_, ?_, ?_, ?_, ?_, ?_⟩
  · simp [e1, hlen', h0, calibration_limit]
  · simp [e2]
    ring
  · simp
  · simp [e2]
    ring_nf
  · simp [e5]
  · simp
  · simp [e6]

/-- Closed form for a run of consecutive sub-threshold ("bad") frames from a
calibrated state with a zeroed slouch counter: after `n` bad frames the
counter reads `n % 91`, the warning has fired `n / 91` times, and the status
shows `SLOUCHING!` exactly once more than 15 frames have accumulated. -/
theorem bad_run (r : ℚ) (n : ℕ) (s : MState) (hcal : s.is_calibrated = true)
    (hr : r < s.baseline_ratio * SENSITIVITY) (ht : s.slouch_timer = 0) :
    (runRatios s (List.replicate n r)).1.is_calibrated = true ∧
    (runRatios s (List.replicate n r)).1.baseline_ratio = s.baseline_ratio ∧
    (runRatios s (List.replicate n r)).1.calibration_frames = s.calibration_frames ∧
    (runRatios s (List.replicate n r)).1.avg_ratio = s.avg_ratio ∧
    (runRatios s (List.replicate n r)).1.slouch_timer = n % 91 ∧
    (runRatios s (List.replicate n r)).1.current_status =
      (if n ≤ 15 then s.current_status else Status.slouching) ∧
    (runRatios s (List.replicate n r)).2 = n / 91 := by
  induction n with
  | zero =>
    simp [runRatios_nil, ht]
    exact hcal
  | succ n ih =>
    obtain ⟨e1, e2, e3, e4, e5, e6, e7⟩ := ih
    rw [List.replicate_succ', runRatios_append, runRatios_singleton]
    rw [processRatio_bad _ e1 r (by rw [e2]; exact hr)]
    rw [e5, e6]
    by_cases hfire : n % 91 + 1 > 30 * slouch_trigger_time
    · rw [if_pos hfire]
      have h90 : n % 91 = 90 := by
        simp [slouch_trigger_time] at hfire
        omega
      refine ⟨by simp [e1], by simp [e2], by simp [e3], by simp [e4], ?_, ?_, ?_⟩
      · simp
        omega
      · simp only
        have h16 : ¬ n + 1 ≤ 15 := by omega
        rw [if_pos (by omega), if_neg h16]
      · simp [e7]
        omega
    · rw [if_neg hfire]
      simp only [slouch_trigger_time] at hfire
      refine ⟨by simp [e1], by simp [e2], by simp [e3], by simp [e4], ?_, ?_, ?_⟩
      · simp
        omega
      · simp only
        by_cases h15 : n + 1 ≤ 15
        · rw [if_neg (by omega), if_pos (by omega), if_pos h15]
        · rw [if_neg h15]
          by_cases hgt : n % 91 + 1 > 15
          · rw [if_pos hgt]
          · rw [if_neg hgt, if_neg (by omega)]
      · simp [e7]
        omega

/-! ### Claim C1 -/

/-- C1, counterexample: feeding 90 consecutive sub-threshold ratios from a
freshly calibrated state (baseline 1, ratio 0) drives the consecutive-bad-
frame counter to 90 without the warning callback ever firing, refuting that
the alert fires on the frame where the counter first reaches 90. -/
theorem C1_counterexample :
    (runRatios (monState 1) (List.replicate 90 (0 : ℚ))).1.slouch_timer = 90 ∧
    (runRatios (monState 1) (List.replicate 90 (0 : ℚ))).2 = 0 := by
  obtain ⟨-, -, -, -, e5, -, e7⟩ :=
    bad_run 0 90 (monState 1) rfl (by norm_num [monState, SENSITIVITY]) rfl
  exact ⟨e5, e7⟩

/-- C1 as amended: in the monitoring phase the warning callback first fires
on the frame at which the consecutive-bad-frame counter strictly exceeds
`trigger_seconds * assumed_frame_rate = 90`, i.e. on the 91st consecutive
sub-threshold frame, and on no earlier frame (the source guard on line 198
is `slouch_timer > 90`, not `>= 90`). -/
theorem C1_alert_first_fires_on_frame_91 (s : MState) (r : ℚ)
    (hcal : s.is_calibrated = true) (hr : r < s.baseline_ratio * SENSITIVITY)
    (ht : s.slouch_timer = 0) (n : ℕ) (hn : n ≤ 90) :
    (runRatios s (List.replicate n r)).2 = 0 ∧
    (runRatios s (List.replicate 91 r)).2 = 1 := by
  obtain ⟨-, -, -, -, -, -, e⟩ := bad_run r n s hcal hr ht
  obtain ⟨-, -, -, -, -, -, e'⟩ := bad_run r 91 s hcal hr ht
  exact ⟨e.trans (by omega), e'⟩

/-- C1, witness: the amended theorem evaluated at baseline 1, ratio 0. -/
theorem C1_witness :
    (runRatios (monState 1) (List.replicate 90 (0 : ℚ))).2 = 0 ∧
    (runRatios (monState 1) (List.replicate 91 (0 : ℚ))).2 = 1 :=
  C1_alert_first_fires_on_frame_91 (monState 1) 0 rfl
    (by norm_num [monState, SENSITIVITY]) rfl 90 (by norm_num)

/-! ### Claim C2 -/

/-- C2: firing the warning resets the counter to 0 (second conjunct), and a
continuous run of `n` sub-threshold frames fires the warning exactly
`n / 91` times — at most once per full trigger-length episode, never once
per subsequent frame (first conjunct). -/
theorem C2_single_fire_per_episode (s : MState) (r : ℚ)
    (hcal : s.is_calibrated = true) (hr : r < s.baseline_ratio * SENSITIVITY)
    (ht : s.slouch_timer = 0) (n : ℕ)
    (t : MState) (c : ℚ) (hfire : (processRatio t c).2 = true) :
    (runRatios s (List.replicate n r)).2 = n / 91 ∧
    (processRatio t c).1.slouch_timer = 0 := by
  obtain ⟨-, -, -, -, -, -, e⟩ := bad_run r n s hcal hr ht
  exact ⟨e, fire_resets_timer t c hfire⟩

/-- C2, witness: 181 continuous sub-threshold frames fire exactly once, and
a firing step leaves the counter at 0. -/
theorem C2_witness :
    (runRatios (monState 1) (List.replicate 181 (0 : ℚ))).2 = 1 ∧
    (processRatio { monState 1 with slouch_timer := 90 } 0).1.slouch_timer = 0 := by
  have hfire : (processRatio { monState 1 with slouch_timer := 90 } 0).2 = true := by
    rw [processRatio_bad _ rfl 0 (by norm_num [monState, SENSITIVITY])]
    norm_num [slouch_trigger_time]
  obtain ⟨h1, h2⟩ := C2_single_fire_per_episode (monState 1) 0 rfl
    (by norm_num [monState, SENSITIVITY]) rfl 181
    { monState 1 with slouch_timer := 90 } 0 hfire
  exact ⟨h1.trans (by norm_num), h2⟩

/-! ### Claim C7 -/

/-- C7: with a fixed baseline, a run of consecutive sub-threshold ratios
does not publish `SLOUCHING!` while the consecutive-bad-frame count is at or
below the debounce floor of 15, and publishes it once the count exceeds the
floor. -/
theorem C7_slouch_debounce (s : MState) (hcal : s.is_calibrated = true)
    (hst : s.current_status = Status.monitoring) (ht : s.slouch_timer = 0)
    (r : ℚ) (hr : r < s.baseline_ratio * SENSITIVITY)
    (n m : ℕ) (hn : n ≤ 15) (hm : 15 < m) :
    (runRatios s (List.replicate n r)).1.current_status ≠ Status.slouching ∧
    (runRatios s (List.replicate m r)).1.current_status = Status.slouching := by
  obtain ⟨-, -, -, -, -, e6, -⟩ := bad_run r n s hcal hr ht
  obtain ⟨-, -, -, -, -, e6', -⟩ := bad_run r m s hcal hr ht
  constructor
  · rw [e6, if_pos hn, hst]
    simp
  · rw [e6', if_neg (by omega)]

/-- C7, witness: with baseline 1 and ratio 0.5, 10 consecutive bad frames do
not show `SLOUCHING!` and 20 do. -/
theorem C7_witness :
    (runRatios (monState 1) (List.replicate 10 (1 / 2 : ℚ))).1.current_status ≠
      Status.slouching ∧
    (runRatios (monState 1) (List.replicate 20 (1 / 2 : ℚ))).1.current_status =
      Status.slouching :=
  C7_slouch_debounce (monState 1) rfl rfl rfl (1 / 2)
    (by norm_num [monState, SENSITIVITY]) 10 20 (by norm_num) (by norm_num)

/-! ### Claim C8 -/

/-- C8: a single frame with ratio at or above the threshold resets the
consecutive-bad-frame counter to 0 and publishes the good-posture status,
and a subsequent sub-threshold streak counts up again from zero (after `n`
further bad frames the counter reads exactly `n`, not the pre-recovery
count plus `n`). -/
theorem C8_recovery_resets_counter (s : MState) (hcal : s.is_calibrated = true)
    (g : ℚ) (hg : ¬ g < s.baseline_ratio * SENSITIVITY)
    (b : ℚ) (hb : b < s.baseline_ratio * SENSITIVITY)
    (n : ℕ) (hn : n ≤ 90) :
    (processRatio s g).1.slouch_timer = 0 ∧
    (processRatio s g).1.current_status = Status.goodPosture ∧
    (runRatios (processRatio s g).1 (List.replicate n b)).1.slouch_timer = n := by
  rw [processRatio_good s hcal g hg]
  refine ⟨rfl, rfl, ?_⟩
  obtain ⟨-, -, -, -, e5, -, -⟩ :=
    bad_run b n { s with slouch_timer := 0, current_status := Status.goodPosture }
      (by simp [hcal]) (by simpa using hb) rfl
  rw [e5]
  omega

/-- C8, witness: from a calibrated state that has already accumulated 14
consecutive bad frames, one good frame resets the counter and status, and 3
further bad frames count 3, not 17. -/
theorem C8_witness :
    (processRatio { monState 1 with slouch_timer := 14 } 1).1.slouch_timer = 0 ∧
    (processRatio { monState 1 with slouch_timer := 14 } 1).1.current_status =
      Status.goodPosture ∧
    (runRatios (processRatio { monState 1 with slouch_timer := 14 } 1).1
      (List.replicate 3 (0 : ℚ))).1.slouch_timer = 3 :=
  C8_recovery_resets_counter { monState 1 with slouch_timer := 14 } rfl
    1 (by norm_num [monState, SENSITIVITY]) 0 (by norm_num [monState, SENSITIVITY])
    3 (by norm_num)

/-! ### Claim C4 -/

/-- C4, counterexample: a session that calibrates (90 frames of ratio 1)
and then sees 5 sub-threshold frames is stopped and restarted; the second
session does not begin with `consecutive_bad_frames = 0` — the source's
session-start reset (lines 125-128) zeroes only the calibration fields, so
`slouch_timer` carries the value 5 over from the previous session. -/
theorem C4_counterexample :
    (startSession ((runRatios (startSession initState)
        (List.replicate 90 (1 : ℚ) ++ List.replicate 5 0)).1)).slouch_timer ≠ 0 := by
  rw [runRatios_append]
  obtain ⟨-, -, c3, c4, c5, -, -⟩ :=
    calibrate_full (startSession initState) rfl rfl (List.replicate 90 (1 : ℚ))
      (by simp [calibration_limit])
  have hb : (runRatios (startSession initState) (List.replicate 90 (1 : ℚ))).1.baseline_ratio
      = 1 := by
    rw [c4]
    simp [startSession, initState, calibration_limit]
    norm_num
  obtain ⟨-, -, -, -, e5, -, -⟩ :=
    bad_run 0 5 (runRatios (startSession initState) (List.replicate 90 (1 : ℚ))).1
      c3 (by rw [hb]; norm_num [SENSITIVITY])
      (by rw [c5]; simp [startSession, initState])
  have hs : ∀ t : MState, (startSession t).slouch_timer = t.slouch_timer := fun t => rfl
  rw [hs, e5]
  norm_num

/-- C4 as amended: the session-start reset at the top of `_monitor_loop`
re-creates the calibration state (frames seen, running sum, is_calibrated
all zeroed) for every new session, but the consecutive-bad-frame counter is
not reset there: `slouch_timer` persists from the previous session (it only
returns to 0 via a good frame or a warning firing), and the stale baseline
is likewise kept until recalibration overwrites it. -/
theorem C4_session_reset (s : MState) :
    (startSession s).calibration_frames = 0 ∧
    (startSession s).avg_ratio = 0 ∧
    (startSession s).is_calibrated = false ∧
    (startSession s).current_status = Status.calibratingStart ∧
    (startSession s).slouch_timer = s.slouch_timer ∧
    (startSession s).baseline_ratio = s.baseline_ratio := by
  simp [startSession]

/-! ### Claim C5 -/

/-- C5: from a freshly started session, 89 valid ratios leave the
accumulator uncalibrated with the baseline still unset (0), and the 90th
valid ratio completes calibration on that frame with
`baseline = running_sum / 90`, the arithmetic mean of the fed ratios. -/
theorem C5_calibration_mean (rs : List ℚ) (h89 : rs.length = 89) (r : ℚ) :
    (runRatios (startSession initState) rs).1.is_calibrated = false ∧
    (runRatios (startSession initState) rs).1.baseline_ratio = 0 ∧
    (runRatios (startSession initState) (rs ++ [r])).1.is_calibrated = true ∧
    (runRatios (startSession initState) (rs ++ [r])).1.baseline_ratio
      = (rs.sum + r) / 90 := by
  obtain ⟨-, -, e3, e4, -, -⟩ :=
    calib_run rs (startSession initState) rfl
      (by simp [startSession, calibration_limit]; omega)
  obtain ⟨-, -, f3, f4, -, -, -⟩ :=
    calibrate_full (startSession initState) rfl rfl (rs ++ [r])
      (by simp [calibration_limit]; omega)
  refine ⟨e3, ?_, f3, ?_⟩
  · rw [e4]
    simp [startSession, initState]
  · rw [f4]
    simp [startSession, initState, calibration_limit]

/-- C5, witness: 89 ratios of value 1 leave the session uncalibrated; the
90th yields `baseline == 1.0`. -/
theorem C5_witness :
    (runRatios (startSession initState) (List.replicate 89 (1 : ℚ))).1.is_calibrated
      = false ∧
    (runRatios (startSession initState)
      (List.replicate 89 (1 : ℚ) ++ [1])).1.is_calibrated = true ∧
    (runRatios (startSession initState)
      (List.replicate 89 (1 : ℚ) ++ [1])).1.baseline_ratio = 1 := by
  obtain ⟨h1, -, h3, h4⟩ := C5_calibration_mean (List.replicate 89 (1 : ℚ)) (by simp) 1
  refine ⟨h1, h3, h4.trans ?_⟩
  simp
  norm_num

/-! ### Claim C6 -/

/-- Unfolding of the three-attempt open loop to a decision tree: the loop
breaks early exactly when an attempt passes both the is-open check and the
read check; otherwise the final held handle is the third capture if it
opened (read outcome ignored), and `None` if it did not. -/
theorem openCamera_eq (d : ℕ → Bool × Bool) :
    openCamera d =
      if (d 0).1 = true ∧ (d 0).2 = true then some 0
      else if (d 1).1 = true ∧ (d 1).2 = true then some 1
      else if (d 2).1 = true then some 2
      else none := by
  have unf : openCamera d =
      if (d 0).1 then
        if (d 0).2 then some 0
        else
          if (d 1).1 then
            if (d 1).2 then some 1
            else if (d 2).1 then (if (d 2).2 then some 2 else some 2) else none
          else if (d 2).1 then (if (d 2).2 then some 2 else some 2) else none
      else
        if (d 1).1 then
          if (d 1).2 then some 1
          else if (d 2).1 then (if (d 2).2 then some 2 else some 2) else none
        else if (d 2).1 then (if (d 2).2 then some 2 else some 2) else none := rfl
  rw [unf]
  rcases h0 : d 0 with ⟨o0, r0⟩
  rcases h1 : d 1 with ⟨o1, r1⟩
  rcases h2 : d 2 with ⟨o2, r2⟩
  cases o0 <;> cases r0 <;> cases o1 <;> cases r1 <;> cases o2 <;> cases r2 <;> simp

/-- The open outcome as a decision tree. -/
theorem cameraOpenOutcome_eq (d : ℕ → Bool × Bool) :
    cameraOpenOutcome d =
      if (d 0).1 = true ∧ (d 0).2 = true then OpenOutcome.proceed 0
      else if (d 1).1 = true ∧ (d 1).2 = true then OpenOutcome.proceed 1
      else if (d 2).1 = true then OpenOutcome.proceed 2
      else OpenOutcome.denied := by
  unfold cameraOpenOutcome
  rw [openCamera_eq]
  by_cases a0 : (d 0).1 = true ∧ (d 0).2 = true
  · simp [a0]
  · by_cases a1 : (d 1).1 = true ∧ (d 1).2 = true
    · simp [a0, a1]
    · by_cases a2 : (d 2).1 = true <;> simp [a0, a1, a2]

/-- C6, counterexample: a camera whose captures always report open but
always fail the test read exhausts all three attempts without any attempt
passing both checks, yet the session proceeds into the per-frame pipeline
holding the third capture instead of ending with
`Error: Camera access denied` — the loop forgets the failed read check of
the final attempt because the post-loop test (line 117) re-checks only
`isOpened()`. -/
theorem C6_counterexample :
    cameraOpenOutcome (fun _ => (true, false)) = OpenOutcome.proceed 2 := by
  rw [cameraOpenOutcome_eq]
  simp

/-- C6 as amended: camera acquisition makes at most 3 open attempts (the
outcome depends only on the first three attempts' behaviour), the retry
loop stops early only when an attempt passes both the is-open check and the
read check, and the session ends with `Error: Camera access denied` if and
only if no attempt passed both checks and the third attempt's is-open check
failed; if the third attempt opens but its test read fails, the session
proceeds into the per-frame pipeline regardless. -/
theorem C6_open_retry (dev dev2 : ℕ → Bool × Bool)
    (hagree : ∀ i, i < 3 → dev i = dev2 i) :
    cameraOpenOutcome dev = cameraOpenOutcome dev2 ∧
    (cameraOpenOutcome dev = OpenOutcome.denied ↔
      (∀ i, i < 3 → ¬((dev i).1 = true ∧ (dev i).2 = true)) ∧ (dev 2).1 = false) := by
  have e0 := hagree 0 (by omega)
  have e1 := hagree 1 (by omega)
  have e2 := hagree 2 (by omega)
  constructor
  · rw [cameraOpenOutcome_eq, cameraOpenOutcome_eq, e0, e1, e2]
  · rw [cameraOpenOutcome_eq]
    have hball : (∀ i, i < 3 → ¬((dev i).1 = true ∧ (dev i).2 = true)) ↔
        (¬((dev 0).1 = true ∧ (dev 0).2 = true) ∧
          ¬((dev 1).1 = true ∧ (dev 1).2 = true) ∧
          ¬((dev 2).1 = true ∧ (dev 2).2 = true)) := by
      constructor
      · intro h
        exact ⟨h 0 (by omega), h 1 (by omega), h 2 (by omega)⟩
      · rintro ⟨p0, p1, p2⟩ i hi
        interval_cases i <;> assumption
    rw [hball]
    rcases h0 : dev 0 with ⟨o0, r0⟩
    rcases h1 : dev 1 with ⟨o1, r1⟩
    rcases h2 : dev 2 with ⟨o2, r2⟩
    cases o0 <;> cases r0 <;> cases o1 <;> cases r1 <;> cases o2 <;> cases r2 <;> simp

/-- C6, witness: a camera that never opens is denied after the retry
budget. -/
theorem C6_witness :
    cameraOpenOutcome (fun _ => (false, false)) = OpenOutcome.denied :=
  (C6_open_retry (fun _ => (false, false)) (fun _ => (false, false))
    (fun _ _ => rfl)).2.mpr ⟨fun i _ => by simp, rfl⟩

/-! ### Claim C3 -/

/-- Adequacy: with callbacks that never raise, the fallible loop body
computes exactly the state of `processRatio`. -/
theorem processRatioCb_agrees (s : MState) (cur : ℚ) :
    processRatioCb (fun _ => Except.ok ()) (Except.ok ()) s cur =
      Except.ok (processRatio s cur).1 := by
  by_cases hcal : s.is_calibrated = false
  · by_cases hge : s.calibration_frames + 1 ≥ calibration_limit <;>
      simp [processRatioCb, processRatio, updateStatusCb, hcal, hge,
        Bind.bind, Except.bind, Pure.pure, Except.pure]
  · by_cases hr : cur < s.baseline_ratio * SENSITIVITY
    · by_cases h15 : s.slouch_timer + 1 > 15 <;>
        by_cases h90 : s.slouch_timer + 1 > 30 * slouch_trigger_time <;>
          simp [processRatioCb, processRatio, updateStatusCb, hcal, hr, h15, h90,
            Bind.bind, Except.bind, Pure.pure, Except.pure]
    · simp [processRatioCb, processRatio, updateStatusCb, hcal, hr, slouch_trigger_time,
        Bind.bind, Except.bind, Pure.pure, Except.pure]

/-- C3, counterexample: with a status callback that raises, the loop is
handed two frames but terminates on the first one with the exception
propagating out of `_update_status` — the second frame is never processed,
refuting that callback exceptions are caught at the call site and the loop
continues. -/
theorem C3_counterexample :
    runFramesCb (fun _ => Except.error ()) (Except.ok ())
      (startSession initState) [some 1, some 1] = (Except.error (), 1) := rfl

/-- C3 as amended: neither `_update_status` (lines 61-65) nor the warning
call site (lines 199-200) wraps the user callback in a handler, so an
exception raised inside a callback propagates out of the loop body
uncaught: on any frame whose processing raises, the acquisition loop
terminates with that exception having consumed exactly that one frame, and
no subsequent frame is processed. -/
theorem C3_callback_exception_ends_loop (cb : Status → Except Unit Unit)
    (warn : Except Unit Unit) (s : MState) (cur : ℚ) (rest : List (Option ℚ))
    (h : processRatioCb cb warn s cur = Except.error ()) :
    runFramesCb cb warn s (some cur :: rest) = (Except.error (), 1) := by
  unfold runFramesCb
  rw [h]

/-- C3, witness: a raising status callback ends a three-frame run on the
first frame. -/
theorem C3_witness :
    runFramesCb (fun _ => Except.error ()) (Except.ok ())
      (startSession initState) [some 1, some 2, none] = (Except.error (), 1) :=
  C3_callback_exception_ends_loop (fun _ => Except.error ()) (Except.ok ())
    (startSession initState) 1 [some 2, none] rfl

/-! ### Geometry helper lemmas -/

/-- With positive shoulder distance, the ratio computes to
neck height over shoulder width. -/
theorem computeRatio_pos (nose l_shldr r_shldr : ℝ × ℝ)
    (hw : 0 < euclideanDist l_shldr r_shldr) :
    computeRatio nose l_shldr r_shldr =
      some (|(l_shldr.2 + r_shldr.2) / 2 - nose.2| / euclideanDist l_shldr r_shldr) := by
  simp [computeRatio, hw]

/-- With degenerate shoulder distance, the ratio is skipped. -/
theorem computeRatio_none (nose l_shldr r_shldr : ℝ × ℝ)
    (hw : euclideanDist l_shldr r_shldr ≤ 0) :
    computeRatio nose l_shldr r_shldr = none := by
  simpa [computeRatio] using hw

/-! ### Claim C9 -/

/-- C9: for every detected (nose, left-shoulder, right-shoulder) triple in
pixel coordinates, the ratio is skipped (`none`) exactly when the Euclidean
distance between the shoulders is ≤ 0, a skipped tick leaves the monitor
state untouched (no calibration or slouch-state update, no firing), and
with positive shoulder distance the computed ratio equals
`|((left.y + right.y)/2) - nose.y|` divided by the shoulder distance. -/
theorem C9_ratio_formula (nose l_shldr r_shldr : ℝ × ℝ) (s : MState) :
    (computeRatio nose l_shldr r_shldr = none ↔ euclideanDist l_shldr r_shldr ≤ 0) ∧
    stepFrame s none = (s, false) ∧
    (0 < euclideanDist l_shldr r_shldr →
      computeRatio nose l_shldr r_shldr =
        some (|(l_shldr.2 + r_shldr.2) / 2 - nose.2| / euclideanDist l_shldr r_shldr)) := by
  refine ⟨⟨fun h => ?_, fun h => computeRatio_none nose l_shldr r_shldr h⟩, rfl,
    fun hw => computeRatio_pos nose l_shldr r_shldr hw⟩
  by_contra hw
  rw [computeRatio_pos nose l_shldr r_shldr (by linarith [lt_of_not_le hw])] at h
  cases h

/-- C9, witness: for nose (0,0) and shoulders (0,3), (4,0) the shoulder
distance is 5 and the ratio evaluates to 0.3; a skipped tick is a no-op. -/
theorem C9_witness :
    computeRatio (0, 0) (0, 3) (4, 0) = some (3 / 10) ∧
    stepFrame (monState 1) none = (monState 1, false) := by
  have hd : euclideanDist ((0 : ℝ), (3 : ℝ)) ((4 : ℝ), (0 : ℝ)) = 5 := by
    unfold euclideanDist
    rw [show ((0 : ℝ) - 4) ^ 2 + ((3 : ℝ) - 0) ^ 2 = 5 ^ 2 by norm_num]
    exact Real.sqrt_sq (by norm_num)
  obtain ⟨-, h2, h3⟩ := C9_ratio_formula (0, 0) (0, 3) (4, 0) (monState 1)
  refine ⟨(h3 (by rw [hd]; norm_num)).trans ?_, h2⟩
  rw [hd]
  norm_num
  rw [abs_of_nonneg (by norm_num : (0 : ℝ) ≤ 3 / 2)]
  norm_num

/-! ### Claim C10 -/

/-- C10: every computed posture ratio is non-negative (whenever the triple
yields a value at all, i.e. the shoulder distance is positive), and
uniformly scaling all three landmark points by any factor k > 0 leaves the
computed ratio unchanged. -/
theorem C10_scale_invariance (nose l_shldr r_shldr : ℝ × ℝ) (k : ℝ) (hk : 0 < k)
    (v : ℝ) (hv : computeRatio nose l_shldr r_shldr = some v) :
    0 ≤ v ∧
    computeRatio (scalePoint k nose) (scalePoint k l_shldr) (scalePoint k r_shldr)
      = some v := by
  have hw : 0 < euclideanDist l_shldr r_shldr := by
    rcases lt_or_le 0 (euclideanDist l_shldr r_shldr) with h | h
    · exact h
    · rw [computeRatio_none nose l_shldr r_shldr h] at hv
      cases hv
  have hval : v = |(l_shldr.2 + r_shldr.2) / 2 - nose.2| / euclideanDist l_shldr r_shldr := by
    rw [computeRatio_pos nose l_shldr r_shldr hw] at hv
    simpa using hv.symm
  have hdist : euclideanDist (scalePoint k l_shldr) (scalePoint k r_shldr)
      = k * euclideanDist l_shldr r_shldr := by
    unfold euclideanDist scalePoint
    rw [show (k * l_shldr.1 - k * r_shldr.1) ^ 2 + (k * l_shldr.2 - k * r_shldr.2) ^ 2
        = k ^ 2 * ((l_shldr.1 - r_shldr.1) ^ 2 + (l_shldr.2 - r_shldr.2) ^ 2) by ring]
    rw [Real.sqrt_mul (sq_nonneg k), Real.sqrt_sq hk.le]
  constructor
  · rw [hval]
    positivity
  · rw [computeRatio_pos _ _ _ (by rw [hdist]; positivity), hdist, hval]
    rw [show ((scalePoint k l_shldr).2 + (scalePoint k r_shldr).2) / 2 - (scalePoint k nose).2
        = k * ((l_shldr.2 + r_shldr.2) / 2 - nose.2) from by simp [scalePoint]; ring]
    rw [abs_mul, abs_of_pos hk, mul_div_mul_left _ _ (ne_of_gt hk)]

/-- C10, witness: at nose (0,7), shoulders (0,0), (3,4) (distance 5) the
ratio is 1, non-negative, and unchanged after scaling all points by 2. -/
theorem C10_witness :
    (0 : ℝ) ≤ 1 ∧
    computeRatio (scalePoint 2 (0, 7)) (scalePoint 2 (0, 0)) (scalePoint 2 (3, 4))
      = some 1 := by
  have hd : euclideanDist ((0 : ℝ), (0 : ℝ)) ((3 : ℝ), (4 : ℝ)) = 5 := by
    unfold euclideanDist
    rw [show ((0 : ℝ) - 3) ^ 2 + ((0 : ℝ) - 4) ^ 2 = 5 ^ 2 by norm_num]
    exact Real.sqrt_sq (by norm_num)
  have hv : computeRatio ((0 : ℝ), (7 : ℝ)) (0, 0) (3, 4) = some 1 := by
    rw [computeRatio_pos _ _ _ (by rw [hd]; norm_num), hd]
    norm_num
  obtain ⟨h1, h2⟩ := C10_scale_invariance (0, 7) (0, 0) (3, 4) 2 (by norm_num) 1 hv
  exact ⟨h1, h2⟩

end PostureCV
